import Mathlib

/-!
Shallow embedding of `question4_agent.py` (GenAI Clinical Data Assistant):
the schema constant `ADAE_SCHEMA`, the rule-based intent resolver
`parse_question`, and the query executor `execute_query`, together with the
dataset-loading normalization performed by the agent constructor.

Modelling conventions:
* A pandas cell that may be `NaN` is an `Option String` (`none` = missing).
* The Python method `str.upper()` (and pandas `.str.upper()`) is `strUpper`, a
  per-character ASCII uppercase map; all strings handled by the program
  (keywords, canonical phrases, CSV fields) are ASCII, where the two agree.
* The Python substring test `needle in hay` and pandas
  `Series.str.contains(pat, na=False)` (whose patterns here are always
  literal: the resolver only emits letters and spaces, no regex
  metacharacters, see claim C10) are `strContains`, contiguous-sublist
  containment on the character lists.
* `pandas.Series.unique().tolist()` is `pandasUnique`, a left fold that
  keeps the first occurrence of each value, in order of first occurrence.
-/

set_option maxRecDepth 100000

namespace Question4

/-- Python `str.upper()`: uppercase each character (ASCII). -/
def strUpper (s : String) : String :=
  ⟨s.data.map Char.toUpper⟩

/-- Python `needle in hay` / pandas `str.contains` with a literal pattern:
`needle` occurs contiguously inside `hay`. -/
def strContains (hay needle : String) : Bool :=
  decide (needle.data <:+: hay.data)

/-- The schema constant `ADAE_SCHEMA` of `question4_agent.py`. -/
def ADAE_SCHEMA : List (String × String) :=
  [("AESEV", "Severity or intensity (e.g., MILD, MODERATE, SEVERE)."),
   ("AETERM", "Specific condition term (e.g., HEADACHE, NAUSEA)."),
   ("AESOC", "Primary body system (e.g., CARDIAC DISORDERS).")]

/-- The intent dictionary returned by `parse_question`. -/
structure Intent where
  target_column : String
  filter_value : String
deriving DecidableEq, Repr

/-- One dataset row; only the four columns the program reads are modelled.
The three schema columns may be missing (`NaN`), the identifier column is
string-typed in the data source. -/
structure Row where
  usubjid : String
  aesev : Option String
  aeterm : Option String
  aesoc : Option String
deriving DecidableEq, Repr

/-- Column access `row[col]` for the three schema columns. -/
def getCell (r : Row) : String → Option String
  | "AESEV" => r.aesev
  | "AETERM" => r.aeterm
  | "AESOC" => r.aesoc
  | _ => none

/-- The result dictionary returned by `execute_query`. -/
structure QueryResult where
  intent : Intent
  subject_count : Nat
  matching_ids : List String
deriving DecidableEq, Repr

/-- `ClinicalTrialDataAgent.parse_question`: uppercase the question, then
try the severity, term and organ-class keyword categories in that order;
fall back to the `{AETERM, UNKNOWN}` sentinel. -/
def parse_question (question : String) : Intent :=
  let qUpper := strUpper question
  if (["SEVERITY", "INTENSITY", "MODERATE", "MILD", "SEVERE"].any
      fun word => strContains qUpper word) then
    { target_column := "AESEV",
      filter_value :=
        ((["MILD", "MODERATE", "SEVERE"].find?
          fun v => strContains qUpper v).getD "MODERATE") }
  else if (["HEADACHE", "NAUSEA", "DIZZINESS"].any
      fun word => strContains qUpper word) then
    { target_column := "AETERM",
      filter_value :=
        ((["HEADACHE", "NAUSEA", "DIZZINESS"].find?
          fun v => strContains qUpper v).getD "HEADACHE") }
  else if (["CARDIAC", "SKIN", "NERVOUS"].any
      fun word => strContains qUpper word) then
    { target_column := "AESOC",
      filter_value :=
        if strContains qUpper "CARDIAC" then "CARDIAC DISORDERS"
        else if strContains qUpper "SKIN" then
          "SKIN AND SUBCUTANEOUS TISSUE DISORDERS"
        else "NERVOUS SYSTEM DISORDERS" }
  else
    { target_column := "AETERM", filter_value := "UNKNOWN" }

/-- The row predicate of `self.df[col].str.contains(val, na=False)`:
a missing cell never matches (`na=False`); a present cell matches when it
contains the filter value. -/
def rowMatches (intent : Intent) (r : Row) : Bool :=
  match getCell r intent.target_column with
  | none => false
  | some s => strContains s intent.filter_value

/-- `pandas.Series.unique().tolist()`: first-occurrence deduplication by a
left-to-right scan with an accumulator of values already seen. -/
def pandasUnique (l : List String) : List String :=
  l.foldl (fun acc x => if x ∈ acc then acc else acc ++ [x]) []

/-- The executor body of `execute_query` applied to an already-parsed
intent: filter the rows, project the subject identifiers, deduplicate. -/
def execute_intent (df : List Row) (intent : Intent) : QueryResult :=
  let filtered := df.filter fun r => rowMatches intent r
  let unique_ids := pandasUnique (filtered.map Row.usubjid)
  { intent := intent,
    subject_count := unique_ids.length,
    matching_ids := unique_ids }

/-- `ClinicalTrialDataAgent.execute_query`: parse the question, then run
the filter against the dataset held by the agent. -/
def execute_query (df : List Row) (user_question : String) : QueryResult :=
  execute_intent df (parse_question user_question)

/-- Load-time normalization of one schema cell,
`df[col].astype(str).str.upper()`: a missing value is stringified to
`"nan"` by `astype(str)`, then every cell is uppercased. -/
def normalizeCell (c : Option String) : Option String :=
  some (strUpper (c.getD "nan"))

/-- Load-time normalization of a row: the three schema columns are
uppercased, the identifier column is left as-is. -/
def normalizeRow (r : Row) : Row :=
  { r with
    aesev := normalizeCell r.aesev,
    aeterm := normalizeCell r.aeterm,
    aesoc := normalizeCell r.aesoc }

/-- A dataframe: its column list plus its rows (the column list only
matters for the shape of the empty fallback table). -/
structure DataFrame where
  cols : List String
  rows : List Row
deriving DecidableEq, Repr

/-- `ClinicalTrialDataAgent.__init__`: on a readable source, load it and
uppercase the schema columns; on `FileNotFoundError`, fall back to an empty
table with exactly the four expected columns. -/
def agent_init (source : Option DataFrame) : DataFrame :=
  match source with
  | some df => { cols := df.cols, rows := df.rows.map normalizeRow }
  | none => { cols := ["USUBJID", "AESEV", "AETERM", "AESOC"], rows := [] }

/-- The ten filter values the resolver can emit. -/
def filterValues : List String :=
  ["MILD", "MODERATE", "SEVERE",
   "HEADACHE", "NAUSEA", "DIZZINESS",
   "CARDIAC DISORDERS", "SKIN AND SUBCUTANEOUS TISSUE DISORDERS",
   "NERVOUS SYSTEM DISORDERS", "UNKNOWN"]

/-- Specification-side deduplication: keep the first occurrence of each
value, stated as a structural recursion (head kept, later copies dropped).
Compared against `pandasUnique`, the accumulator scan the code performs. -/
def uniqueFirst : List String → List String
  | [] => []
  | x :: xs => x :: uniqueFirst (xs.filter fun y => y != x)
termination_by l => l.length
decreasing_by
  simp only [List.length_cons]
  exact Nat.lt_succ_of_le (List.length_filter_le _ _)

/-- A cell is uppercase-normalized: absent, or fixed by uppercasing. -/
def cellNormB (c : Option String) : Bool :=
  match c with
  | none => true
  | some s => strUpper s == s

/-- A row is uppercase-normalized in the three schema columns, the
invariant `__init__` establishes on every loaded row. -/
def rowNormB (r : Row) : Bool :=
  cellNormB r.aesev && cellNormB r.aeterm && cellNormB r.aesoc

/-- The regular-expression metacharacters of the Python `re` syntax. -/
def regexMetaChars : List Char :=
  ['\\', '.', '^', '$', '*', '+', '?', '[', ']', '(', ')', '|',
   Char.ofNat 123, Char.ofNat 125]

/-- First row of the concrete scenario in the spec (§8). -/
def sampleRow1 : Row :=
  { usubjid := "S1", aesev := some "MODERATE", aeterm := some "HEADACHE",
    aesoc := some "NERVOUS SYSTEM DISORDERS" }

/-- Second row of the concrete scenario in the spec (§8). -/
def sampleRow2 : Row :=
  { usubjid := "S2", aesev := some "MILD", aeterm := some "NAUSEA",
    aesoc := some "CARDIAC DISORDERS" }

/-- Third row of the concrete scenario in the spec (§8): same subject as the
first row, so its identifier must be deduplicated. -/
def sampleRow3 : Row :=
  { usubjid := "S1", aesev := some "SEVERE", aeterm := some "HEADACHE",
    aesoc := some "CARDIAC DISORDERS" }

/-- The three-row concrete dataset of the spec (§8). -/
def sampleDF : List Row := [sampleRow1, sampleRow2, sampleRow3]

example : parse_question "Which subjects experienced a Headache?"
    = ⟨"AETERM", "HEADACHE"⟩ := by decide

example : parse_question "Give me the subjects who had Adverse events of Moderate severity."
    = ⟨"AESEV", "MODERATE"⟩ := by decide

example : parse_question "Find subjects with Cardiac issues."
    = ⟨"AESOC", "CARDIAC DISORDERS"⟩ := by decide

example : parse_question "Find subjects with Diarrhoea."
    = ⟨"AETERM", "UNKNOWN"⟩ := by decide

example : parse_question "What was the intensity?"
    = ⟨"AESEV", "MODERATE"⟩ := by decide

/-! Branch lemmas for `parse_question`: one per arm of the keyword
cascade, conditioned on the guard of the arm and the failure of the guards
before it. -/

theorem parse_question_sev (q : String)
    (h : (["SEVERITY", "INTENSITY", "MODERATE", "MILD", "SEVERE"].any
      fun word => strContains (strUpper q) word) = true) :
    parse_question q =
      { target_column := "AESEV",
        filter_value :=
          ((["MILD", "MODERATE", "SEVERE"].find?
            fun v => strContains (strUpper q) v).getD "MODERATE") } := by
  unfold parse_question
  dsimp only
  rw [if_pos h]

theorem parse_question_term (q : String)
    (h1 : (["SEVERITY", "INTENSITY", "MODERATE", "MILD", "SEVERE"].any
      fun word => strContains (strUpper q) word) = false)
    (h2 : (["HEADACHE", "NAUSEA", "DIZZINESS"].any
      fun word => strContains (strUpper q) word) = true) :
    parse_question q =
      { target_column := "AETERM",
        filter_value :=
          ((["HEADACHE", "NAUSEA", "DIZZINESS"].find?
            fun v => strContains (strUpper q) v).getD "HEADACHE") } := by
  unfold parse_question
  dsimp only
  rw [h1, if_pos h2]
  simp

theorem parse_question_soc (q : String)
    (h1 : (["SEVERITY", "INTENSITY", "MODERATE", "MILD", "SEVERE"].any
      fun word => strContains (strUpper q) word) = false)
    (h2 : (["HEADACHE", "NAUSEA", "DIZZINESS"].any
      fun word => strContains (strUpper q) word) = false)
    (h3 : (["CARDIAC", "SKIN", "NERVOUS"].any
      fun word => strContains (strUpper q) word) = true) :
    parse_question q =
      { target_column := "AESOC",
        filter_value :=
          if strContains (strUpper q) "CARDIAC" then "CARDIAC DISORDERS"
          else if strContains (strUpper q) "SKIN" then
            "SKIN AND SUBCUTANEOUS TISSUE DISORDERS"
          else "NERVOUS SYSTEM DISORDERS" } := by
  unfold parse_question
  dsimp only
  rw [h1, h2, if_pos h3]
  simp

theorem parse_question_default (q : String)
    (h1 : (["SEVERITY", "INTENSITY", "MODERATE", "MILD", "SEVERE"].any
      fun word => strContains (strUpper q) word) = false)
    (h2 : (["HEADACHE", "NAUSEA", "DIZZINESS"].any
      fun word => strContains (strUpper q) word) = false)
    (h3 : (["CARDIAC", "SKIN", "NERVOUS"].any
      fun word => strContains (strUpper q) word) = false) :
    parse_question q = { target_column := "AETERM", filter_value := "UNKNOWN" } := by
  unfold parse_question
  dsimp only
  rw [h1, h2, h3]
  simp

/-- The default of a `find?`-with-default over a list stays in the list. -/
theorem find?_getD_mem (l : List String) (p : String → Bool) (d : String)
    (hd : d ∈ l) : (l.find? p).getD d ∈ l := by
  cases hf : l.find? p with
  | none => simpa using hd
  | some v => simpa using List.mem_of_find?_eq_some hf

/-- The resolved target column is always one of the three schema columns. -/
theorem target_column_mem (q : String) :
    (parse_question q).target_column ∈ ["AESEV", "AETERM", "AESOC"] := by
  cases h1 : (["SEVERITY", "INTENSITY", "MODERATE", "MILD", "SEVERE"].any
      fun word => strContains (strUpper q) word) with
  | true => rw [parse_question_sev q h1]; simp
  | false =>
    cases h2 : (["HEADACHE", "NAUSEA", "DIZZINESS"].any
        fun word => strContains (strUpper q) word) with
    | true => rw [parse_question_term q h1 h2]; simp
    | false =>
      cases h3 : (["CARDIAC", "SKIN", "NERVOUS"].any
          fun word => strContains (strUpper q) word) with
      | true => rw [parse_question_soc q h1 h2 h3]; simp
      | false => rw [parse_question_default q h1 h2 h3]; simp

/-- The resolved filter value is always one of the ten fixed strings. -/
theorem filter_value_mem (q : String) :
    (parse_question q).filter_value ∈ filterValues := by
  cases h1 : (["SEVERITY", "INTENSITY", "MODERATE", "MILD", "SEVERE"].any
      fun word => strContains (strUpper q) word) with
  | true =>
    rw [parse_question_sev q h1]
    dsimp only
    have hm := find?_getD_mem ["MILD", "MODERATE", "SEVERE"]
      (fun v => strContains (strUpper q) v) "MODERATE" (by decide)
    simp only [List.mem_cons, List.not_mem_nil, or_false] at hm
    rcases hm with h | h | h <;> rw [h] <;> decide
  | false =>
    cases h2 : (["HEADACHE", "NAUSEA", "DIZZINESS"].any
        fun word => strContains (strUpper q) word) with
    | true =>
      rw [parse_question_term q h1 h2]
      dsimp only
      have hm := find?_getD_mem ["HEADACHE", "NAUSEA", "DIZZINESS"]
        (fun v => strContains (strUpper q) v) "HEADACHE" (by decide)
      simp only [List.mem_cons, List.not_mem_nil, or_false] at hm
      rcases hm with h | h | h <;> rw [h] <;> decide
    | false =>
      cases h3 : (["CARDIAC", "SKIN", "NERVOUS"].any
          fun word => strContains (strUpper q) word) with
      | true =>
        rw [parse_question_soc q h1 h2 h3]
        dsimp only
        split
        · decide
        · split <;> decide
      | false => rw [parse_question_default q h1 h2 h3]; decide

/-- Every value in `filterValues` is non-empty, fixed by uppercasing, and
free of regular-expression metacharacters. -/
theorem filterValues_props : ∀ v ∈ filterValues,
    strUpper v = v ∧ v ≠ "" ∧
    (v.data.all fun c => !(regexMetaChars.contains c)) = true := by decide

/-- The resolved filter value is fixed by uppercasing. -/
theorem filter_value_upper (q : String) :
    strUpper (parse_question q).filter_value = (parse_question q).filter_value :=
  (filterValues_props _ (filter_value_mem q)).1

/-- The empty string occurs in every string. -/
theorem strContains_empty (s : String) : strContains s "" = true :=
  decide_eq_true List.nil_infix

/-- A normalized cell holding a value holds an uppercase-fixed value. -/
theorem cellNorm_eq (c : Option String) (s : String) (h : cellNormB c = true)
    (hc : c = some s) : strUpper s = s := by
  subst hc
  simpa [cellNormB] using h

/-- A cell read from a normalized row is fixed by uppercasing. -/
theorem norm_getCell (r : Row) (h : rowNormB r = true) (c s : String)
    (hc : getCell r c = some s) : strUpper s = s := by
  unfold rowNormB at h
  rw [Bool.and_eq_true, Bool.and_eq_true] at h
  obtain ⟨⟨h1, h2⟩, h3⟩ := h
  unfold getCell at hc
  split at hc
  · exact cellNorm_eq _ s h1 hc
  · exact cellNorm_eq _ s h2 hc
  · exact cellNorm_eq _ s h3 hc
  · simp at hc

/-! Properties of first-occurrence deduplication, and the identification
of the accumulator scan `pandasUnique` with the structural `uniqueFirst`. -/

theorem uniqueFirst_nil : uniqueFirst [] = [] := by
  unfold uniqueFirst
  rfl

theorem uniqueFirst_cons (x : String) (xs : List String) :
    uniqueFirst (x :: xs) = x :: uniqueFirst (xs.filter fun y => y != x) := by
  rw [uniqueFirst]

/-- Membership is unchanged by first-occurrence deduplication. -/
theorem mem_uniqueFirst (a : String) (l : List String) :
    a ∈ uniqueFirst l ↔ a ∈ l := by
  induction l using uniqueFirst.induct with
  | case1 => simp [uniqueFirst_nil]
  | case2 x xs ih =>
    rw [uniqueFirst_cons]
    by_cases hax : a = x
    · subst hax; simp
    · simp only [List.mem_cons, hax, false_or, ih, List.mem_filter,
        bne_iff_ne, ne_eq, hax, not_false_eq_true, and_true]

/-- First-occurrence deduplication preserves relative order: the result is
a sublist of the input. -/
theorem uniqueFirst_sublist (l : List String) : (uniqueFirst l).Sublist l := by
  induction l using uniqueFirst.induct with
  | case1 => simp [uniqueFirst_nil]
  | case2 x xs ih =>
    rw [uniqueFirst_cons]
    exact List.Sublist.cons₂ x (ih.trans (List.filter_sublist xs))

/-- First-occurrence deduplication leaves no duplicates. -/
theorem uniqueFirst_nodup (l : List String) : (uniqueFirst l).Nodup := by
  induction l using uniqueFirst.induct with
  | case1 => simp [uniqueFirst_nil]
  | case2 x xs ih =>
    rw [uniqueFirst_cons]
    refine List.nodup_cons.mpr ⟨?_, ih⟩
    intro hx
    rw [mem_uniqueFirst] at hx
    have hpx := List.of_mem_filter hx
    simp at hpx

/-- Generalized accumulator invariant for the `pandasUnique` fold: with
values `acc` already seen, the fold appends the first-occurrence
deduplication of the not-yet-seen suffix values. -/
theorem pandasUnique_go (l : List String) : ∀ acc : List String,
    l.foldl (fun acc x => if x ∈ acc then acc else acc ++ [x]) acc
      = acc ++ uniqueFirst (l.filter fun y => !(acc.contains y)) := by
  induction l with
  | nil => intro acc; simp [uniqueFirst_nil]
  | cons x xs ih =>
    intro acc
    rw [List.foldl_cons]
    by_cases hx : x ∈ acc
    · rw [if_pos hx, ih acc]
      have hfc : ((x :: xs).filter fun y => !(acc.contains y))
          = xs.filter fun y => !(acc.contains y) := by
        rw [List.filter_cons]
        simp [hx]
      rw [hfc]
    · rw [if_neg hx, ih (acc ++ [x])]
      have h1 : ((x :: xs).filter fun y => !(acc.contains y))
          = x :: (xs.filter fun y => !(acc.contains y)) := by
        rw [List.filter_cons]
        simp [hx]
      have h2 : (xs.filter fun a => (a != x) && (!(acc.contains a)))
          = xs.filter fun y => !((acc ++ [x]).contains y) := by
        apply List.filter_congr
        intro a _
        by_cases ha : a ∈ acc <;> by_cases hax : a = x <;>
          simp [List.contains, ha, hax, List.mem_append]
      rw [h1, uniqueFirst_cons, List.filter_filter, h2, List.append_assoc]
      rfl

/-- The accumulator scan the code performs computes exactly the
first-occurrence deduplication. -/
theorem pandasUnique_eq_uniqueFirst (l : List String) :
    pandasUnique l = uniqueFirst l := by
  have h := pandasUnique_go l []
  simpa [pandasUnique] using h

/-! Uppercasing is idempotent, so the load-time normalization makes every
loaded row satisfy `rowNormB`. -/

theorem toNat_char_ofNat (n : Nat) (h : n.isValidChar) :
    (Char.ofNat n).toNat = n := by
  rw [Char.ofNat, dif_pos h]
  rfl

theorem toUpper_idem (c : Char) : (Char.toUpper c).toUpper = c.toUpper := by
  unfold Char.toUpper
  dsimp only
  by_cases h : c.toNat ≥ 97 ∧ c.toNat ≤ 122
  · rw [if_pos h]
    have hv : (c.toNat - 32).isValidChar := Or.inl (by omega)
    have ht := toNat_char_ofNat (c.toNat - 32) hv
    rw [ht, if_neg (by omega)]
  · rw [if_neg h, if_neg h]

theorem strUpper_idem (s : String) : strUpper (strUpper s) = strUpper s := by
  unfold strUpper
  apply congrArg String.mk
  show (s.data.map Char.toUpper).map Char.toUpper = s.data.map Char.toUpper
  rw [List.map_map]
  exact congrArg (fun f => List.map f s.data) (funext toUpper_idem)

theorem cellNormB_normalizeCell (c : Option String) :
    cellNormB (normalizeCell c) = true := by
  unfold normalizeCell cellNormB
  dsimp only
  rw [strUpper_idem]
  simp

theorem rowNormB_normalizeRow (r : Row) : rowNormB (normalizeRow r) = true := by
  unfold rowNormB normalizeRow
  dsimp only
  rw [cellNormB_normalizeCell, cellNormB_normalizeCell, cellNormB_normalizeCell]
  rfl

/-- Every row of the dataset of a constructed agent is uppercase-normalized in
the schema columns, whether loaded from a source or from the fallback. -/
theorem agent_init_rows_norm (src : Option DataFrame) (r : Row)
    (hr : r ∈ (agent_init src).rows) : rowNormB r = true := by
  cases src with
  | none => simp [agent_init] at hr
  | some df =>
    simp only [agent_init] at hr
    obtain ⟨r0, _, rfl⟩ := List.mem_map.mp hr
    exact rowNormB_normalizeRow r0

/-- A helper for claim C7: with an empty filter value the row predicate of
`execute_query` reduces to the cell being present. -/
theorem rowMatches_empty (col : String) (r : Row) :
    rowMatches { target_column := col, filter_value := "" } r
      = (getCell r col).isSome := by
  unfold rowMatches
  cases hc : getCell r col with
  | none => simp
  | some s => simp [strContains_empty]

/-- Claim C1: for every intent produced by the resolver and every row that
satisfies the load-time uppercase normalization, the filter applied by
`execute_query` matches the row exactly when its value in the target
column contains the filter value as a case-insensitive substring; a
missing value in the target column never matches (non-match, not an
error). -/
theorem C1_filter_is_case_insensitive_substring (q : String) (r : Row)
    (h : rowNormB r = true) :
    (rowMatches (parse_question q) r =
      (getCell r (parse_question q).target_column).any
        fun s => strContains (strUpper s) (strUpper (parse_question q).filter_value)) ∧
    (getCell r (parse_question q).target_column = none →
      rowMatches (parse_question q) r = false) := by
  constructor
  · cases hc : getCell r (parse_question q).target_column with
    | none => simp [rowMatches, hc]
    | some s =>
      have hs : strUpper s = s := norm_getCell r h _ s hc
      have hv := filter_value_upper q
      simp [rowMatches, hc, hs, hv]
  · intro hc
    simp [rowMatches, hc]

/-- Witness for C1 at the first sample row and headache question. -/
theorem C1_witness :
    rowNormB sampleRow1 = true ∧
    (rowMatches (parse_question "Which subjects experienced a Headache?") sampleRow1 =
      (getCell sampleRow1
        (parse_question "Which subjects experienced a Headache?").target_column).any
        fun s => strContains (strUpper s)
          (strUpper (parse_question "Which subjects experienced a Headache?").filter_value)) :=
  ⟨by decide,
    (C1_filter_is_case_insensitive_substring
      "Which subjects experienced a Headache?" sampleRow1 (by decide)).1⟩

/-- Claim C2: every resolved target column is a key of the schema mapping
`ADAE_SCHEMA`. -/
theorem C2_target_column_in_schema (q : String) :
    (parse_question q).target_column ∈ ADAE_SCHEMA.map Prod.fst := by
  have h := target_column_mem q
  simpa [ADAE_SCHEMA] using h

/-- Witness for C2 at a concrete question. -/
theorem C2_witness :
    (parse_question "Which subjects experienced a Headache?").target_column
      ∈ ADAE_SCHEMA.map Prod.fst :=
  C2_target_column_in_schema "Which subjects experienced a Headache?"

/-- Claim C3: `matching_ids` is exactly the first-occurrence
deduplication of the subject identifiers of the matching rows — duplicate-free,
a sublist of (hence ordered like) the matching identifiers, with the same
members — and `subject_count` is its length. -/
theorem C3_matching_ids_distinct_first_occurrence (df : List Row) (q : String) :
    (execute_query df q).matching_ids
      = uniqueFirst ((df.filter fun r => rowMatches (parse_question q) r).map Row.usubjid) ∧
    (execute_query df q).matching_ids.Nodup ∧
    List.Sublist (execute_query df q).matching_ids
      ((df.filter fun r => rowMatches (parse_question q) r).map Row.usubjid) ∧
    (∀ a, a ∈ (execute_query df q).matching_ids ↔
      a ∈ (df.filter fun r => rowMatches (parse_question q) r).map Row.usubjid) ∧
    (execute_query df q).subject_count = (execute_query df q).matching_ids.length := by
  have h1 : (execute_query df q).matching_ids
      = uniqueFirst ((df.filter fun r => rowMatches (parse_question q) r).map Row.usubjid) :=
    pandasUnique_eq_uniqueFirst _
  refine ⟨h1, ?_, ?_, ?_, rfl⟩
  · rw [h1]; exact uniqueFirst_nodup _
  · rw [h1]; exact uniqueFirst_sublist _
  · intro a; rw [h1]; exact mem_uniqueFirst a _

/-- Counterexample for C4 as stated: on "What was the intensity?" the
severity category is assigned, yet the returned filter value `MODERATE`
is not a keyword that matches the question — no keyword of the severity
value list occurs in it at all — so the filter value is a default, not
"the first matching keyword in the priority list of that category". -/
theorem C4_counterexample_default_value_not_a_matching_keyword :
    (parse_question "What was the intensity?").target_column = "AESEV" ∧
    (parse_question "What was the intensity?").filter_value = "MODERATE" ∧
    strContains (strUpper "What was the intensity?") "MODERATE" = false ∧
    (∀ v ∈ ["MILD", "MODERATE", "SEVERE"],
      strContains (strUpper "What was the intensity?") v = false) := by decide

/-- Claim C4 (amended): categories are tried in the fixed order severity,
term, organ class; within the severity category the filter value is the
first of MILD, MODERATE, SEVERE occurring in the uppercased question,
defaulting to MODERATE when the category was triggered (e.g. by INTENSITY)
but none of the three occurs; within the term category it is the first
matching keyword (one always occurs); the organ-class category yields the
canonical expanded phrases; if no category keywords appear, the sentinel
intent `{AETERM, UNKNOWN}` is returned rather than an error. -/
theorem C4_amended_priority_cascade (q : String) :
    ((["SEVERITY", "INTENSITY", "MODERATE", "MILD", "SEVERE"].any
        fun word => strContains (strUpper q) word) = true →
      parse_question q =
        { target_column := "AESEV",
          filter_value := ((["MILD", "MODERATE", "SEVERE"].find?
            fun v => strContains (strUpper q) v).getD "MODERATE") }) ∧
    ((["SEVERITY", "INTENSITY", "MODERATE", "MILD", "SEVERE"].any
        fun word => strContains (strUpper q) word) = false →
      (["HEADACHE", "NAUSEA", "DIZZINESS"].any
        fun word => strContains (strUpper q) word) = true →
      ∃ v, (["HEADACHE", "NAUSEA", "DIZZINESS"].find?
          fun w => strContains (strUpper q) w) = some v ∧
        strContains (strUpper q) v = true ∧
        parse_question q = { target_column := "AETERM", filter_value := v }) ∧
    ((["SEVERITY", "INTENSITY", "MODERATE", "MILD", "SEVERE"].any
        fun word => strContains (strUpper q) word) = false →
      (["HEADACHE", "NAUSEA", "DIZZINESS"].any
        fun word => strContains (strUpper q) word) = false →
      (["CARDIAC", "SKIN", "NERVOUS"].any
        fun word => strContains (strUpper q) word) = true →
      (parse_question q).target_column = "AESOC") ∧
    ((["SEVERITY", "INTENSITY", "MODERATE", "MILD", "SEVERE"].any
        fun word => strContains (strUpper q) word) = false →
      (["HEADACHE", "NAUSEA", "DIZZINESS"].any
        fun word => strContains (strUpper q) word) = false →
      (["CARDIAC", "SKIN", "NERVOUS"].any
        fun word => strContains (strUpper q) word) = false →
      parse_question q = { target_column := "AETERM", filter_value := "UNKNOWN" }) := by
  refine ⟨fun h1 => parse_question_sev q h1, fun h1 h2 => ?_,
    fun h1 h2 h3 => ?_, fun h1 h2 h3 => parse_question_default q h1 h2 h3⟩
  · have hex : ∃ w, w ∈ ["HEADACHE", "NAUSEA", "DIZZINESS"] ∧
        strContains (strUpper q) w = true := by
      simpa using h2
    have hsome : (["HEADACHE", "NAUSEA", "DIZZINESS"].find?
        fun w => strContains (strUpper q) w).isSome := by
      rw [List.find?_isSome]; exact hex
    obtain ⟨v, hv⟩ := Option.isSome_iff_exists.mp hsome
    refine ⟨v, hv, List.find?_some hv, ?_⟩
    rw [parse_question_term q h1 h2, hv]
    rfl
  · rw [parse_question_soc q h1 h2 h3]

/-- Witness for C4 at the severity-category sample question. -/
theorem C4_witness :
    parse_question "Give me the subjects who had Adverse events of Moderate severity."
      = { target_column := "AESEV",
          filter_value := ((["MILD", "MODERATE", "SEVERE"].find?
            fun v => strContains (strUpper
              "Give me the subjects who had Adverse events of Moderate severity.") v).getD
            "MODERATE") } :=
  (C4_amended_priority_cascade
    "Give me the subjects who had Adverse events of Moderate severity.").1 (by decide)

/-- Claim C5: the query result depends on the question text only through
its uppercasing, so questions differing only in case — e.g. one mentioning
"headache" and one "HEADACHE" — yield identical results, in particular
identical `matching_ids`. -/
theorem C5_query_case_insensitive (df : List Row) (q1 q2 : String)
    (h : strUpper q1 = strUpper q2) :
    execute_query df q1 = execute_query df q2 := by
  have hp : parse_question q1 = parse_question q2 := by
    unfold parse_question
    rw [h]
  unfold execute_query
  rw [hp]

/-- Witness for C5: the lowercase and uppercase headache questions agree
on the sample dataset. -/
theorem C5_witness :
    strUpper "Which subjects experienced a headache?"
      = strUpper "WHICH SUBJECTS EXPERIENCED A HEADACHE?" ∧
    execute_query sampleDF "Which subjects experienced a headache?"
      = execute_query sampleDF "WHICH SUBJECTS EXPERIENCED A HEADACHE?" :=
  ⟨by decide,
    C5_query_case_insensitive sampleDF
      "Which subjects experienced a headache?"
      "WHICH SUBJECTS EXPERIENCED A HEADACHE?" (by decide)⟩

/-- Claim C6: when the dataset source is unavailable the constructor
substitutes an empty table with exactly the columns USUBJID, AESEV,
AETERM, AESOC (instead of raising), and every query against a zero-row
dataset returns `subject_count = 0` and `matching_ids = []`. -/
theorem C6_fallback_and_empty_dataset (q : String) :
    agent_init none
      = { cols := ["USUBJID", "AESEV", "AETERM", "AESOC"], rows := [] } ∧
    (execute_query [] q).subject_count = 0 ∧
    (execute_query [] q).matching_ids = [] :=
  ⟨rfl, rfl, rfl⟩

/-- Claim C7: an empty filter value matches exactly the rows whose target
column holds a value (substring-of-anything semantics, no special case):
the row predicate degenerates to presence of the cell, and the executor
returns the deduplicated identifiers of exactly the non-null rows. -/
theorem C7_empty_filter_value_matches_nonnull (df : List Row) (col : String)
    (r : Row) :
    rowMatches { target_column := col, filter_value := "" } r
      = (getCell r col).isSome ∧
    (execute_intent df { target_column := col, filter_value := "" }).matching_ids
      = pandasUnique ((df.filter fun x => (getCell x col).isSome).map Row.usubjid) := by
  refine ⟨rowMatches_empty col r, ?_⟩
  have hf : (df.filter fun x => rowMatches { target_column := col, filter_value := "" } x)
      = df.filter fun x => (getCell x col).isSome :=
    List.filter_congr fun a _ => rowMatches_empty col a
  show pandasUnique ((df.filter fun x =>
    rowMatches { target_column := col, filter_value := "" } x).map Row.usubjid) = _
  rw [hf]

/-- Claim C8: when no severity or term keyword occurs and an organ-class
keyword does, the filter value is the canonical expanded phrase of the
triggering keyword (CARDIAC, then SKIN, then NERVOUS). -/
theorem C8_organ_class_canonical_phrase (q : String)
    (h1 : (["SEVERITY", "INTENSITY", "MODERATE", "MILD", "SEVERE"].any
      fun word => strContains (strUpper q) word) = false)
    (h2 : (["HEADACHE", "NAUSEA", "DIZZINESS"].any
      fun word => strContains (strUpper q) word) = false) :
    (strContains (strUpper q) "CARDIAC" = true →
      parse_question q =
        { target_column := "AESOC", filter_value := "CARDIAC DISORDERS" }) ∧
    (strContains (strUpper q) "CARDIAC" = false →
      strContains (strUpper q) "SKIN" = true →
      parse_question q =
        { target_column := "AESOC",
          filter_value := "SKIN AND SUBCUTANEOUS TISSUE DISORDERS" }) ∧
    (strContains (strUpper q) "CARDIAC" = false →
      strContains (strUpper q) "SKIN" = false →
      strContains (strUpper q) "NERVOUS" = true →
      parse_question q =
        { target_column := "AESOC",
          filter_value := "NERVOUS SYSTEM DISORDERS" }) := by
  refine ⟨fun hc => ?_, fun hc hs => ?_, fun hc hs hn => ?_⟩
  · have h3 : (["CARDIAC", "SKIN", "NERVOUS"].any
        fun word => strContains (strUpper q) word) = true := by
      simp [hc]
    rw [parse_question_soc q h1 h2 h3]
    simp [hc]
  · have h3 : (["CARDIAC", "SKIN", "NERVOUS"].any
        fun word => strContains (strUpper q) word) = true := by
      simp [hs]
    rw [parse_question_soc q h1 h2 h3]
    simp [hc, hs]
  · have h3 : (["CARDIAC", "SKIN", "NERVOUS"].any
        fun word => strContains (strUpper q) word) = true := by
      simp [hn]
    rw [parse_question_soc q h1 h2 h3]
    simp [hc, hs]

/-- Witness for C8 at the cardiac sample question. -/
theorem C8_witness :
    parse_question "Find subjects with Cardiac issues."
      = { target_column := "AESOC", filter_value := "CARDIAC DISORDERS" } :=
  (C8_organ_class_canonical_phrase "Find subjects with Cardiac issues."
    (by decide) (by decide)).1 (by decide)

/-- Claim C9: with an unchanged dataset, two calls of `execute_query` on
the same question return identical results: the embedded pipeline is a
pure function of the dataset and the question, so the intent, the count
and the identifier list all coincide. -/
theorem C9_idempotent_query (df : List Row) (q : String) :
    (execute_query df q).intent = (execute_query df q).intent ∧
    (execute_query df q).subject_count = (execute_query df q).subject_count ∧
    (execute_query df q).matching_ids = (execute_query df q).matching_ids :=
  ⟨rfl, rfl, rfl⟩

/-- Claim C10: the filter value of the resolver always lies in the fixed
ten-string set, and is therefore non-empty, fixed by uppercasing, and free
of regular-expression metacharacters. -/
theorem C10_filter_value_invariants (q : String) :
    (parse_question q).filter_value ∈ filterValues ∧
    (parse_question q).filter_value ≠ "" ∧
    strUpper (parse_question q).filter_value = (parse_question q).filter_value ∧
    ((parse_question q).filter_value.data.all
      fun c => !(regexMetaChars.contains c)) = true := by
  have hm := filter_value_mem q
  have hp := filterValues_props _ hm
  exact ⟨hm, hp.2.1, hp.1, hp.2.2⟩

end Question4
